import Mathlib

/-!
Verification development for a small authentication/profile layer.

The program consists of a Profile Store Adapter
(`src/services/firebase/userProfile.ts`: `fetchUserProfile`,
`updateUserProfile`, `createUserProfile`) over a remote document store,
and a Session Context (`src/contexts/AuthContext.tsx`) orchestrating an
external identity provider and the adapter.

Embedding choices:
- The remote document store is a map from user id to an optional stored
  record.  Stored records and the partial data passed to the adapter share
  one shape, `ProfileData`, whose fields are all optional (`none` models a
  key that is absent / `undefined` in JavaScript).
- JavaScript object spread `{...a, ...b}` is `ProfileData.merge a b`:
  a field present in `b` overrides the one of `a`.
- Timestamps (`new Date().toISOString()`) are natural numbers; each
  distinct `new Date()` call in the source is a separate parameter, and
  monotonicity of the clock is a hypothesis where a claim needs it.
- Each `await` on an external service is parametrised by its outcome:
  a boolean failure flag for document-store calls, an `Except` value for
  identity-provider calls.  A thrown JavaScript error is an
  `Except.error`; `try`/`catch` is an explicit `match` on it.
- `toast.success`/`toast.error` calls are collected in order into a list
  of strings (`console.error` is not user-visible and is not collected).
-/

/-- Errors thrown across the embedded code:
`noUser` models `new Error('No user logged in')`, `storeError` a rejected
document-store call, `authNetworkFailed` a provider error whose code is
`auth/network-request-failed`, and `authRejected` any other provider
rejection (wrong password, duplicate account, ...). -/
inductive JSError where
  | noUser : JSError
  | storeError : JSError
  | authNetworkFailed : JSError
  | authRejected : JSError
deriving DecidableEq, Repr

/-- A profile object with every field optional: both the records persisted
in the document store and the `Partial<UserProfile>` arguments of the
adapter have this shape.  `none` is an absent / `undefined` field. -/
structure ProfileData where
  id : Option String := none
  email : Option String := none
  phone : Option String := none
  name : Option String := none
  photoURL : Option String := none
  createdAt : Option Nat := none
  updatedAt : Option Nat := none
deriving DecidableEq, Repr

/-- The `UserProfile` value returned to callers of `fetchUserProfile`:
the TypeScript cast `as UserProfile` does not make missing fields appear,
so every field except `id` stays optional. -/
structure UserProfile where
  id : String
  email : Option String := none
  phone : Option String := none
  name : Option String := none
  photoURL : Option String := none
  createdAt : Option Nat := none
  updatedAt : Option Nat := none
deriving DecidableEq, Repr

/-- JavaScript spread override for one field: in `{...a, ...b}` the value
of `b` wins when present. -/
def over {α : Type} (b a : Option α) : Option α :=
  match b with
  | some v => some v
  | none => a

/-- `{...a, ...b}` on profile objects. -/
def ProfileData.merge (a b : ProfileData) : ProfileData :=
  { id := over b.id a.id
    email := over b.email a.email
    phone := over b.phone a.phone
    name := over b.name a.name
    photoURL := over b.photoURL a.photoURL
    createdAt := over b.createdAt a.createdAt
    updatedAt := over b.updatedAt a.updatedAt }

/-- The remote document store, keyed by user id (`users/${uid}`). -/
def Store : Type := String → Option ProfileData

/-- `{ id: uid, ...d }`: the profile returned by `fetchUserProfile`.
Because the stored fields are spread after `id: uid`, a stored `id` field
overrides the requested one. -/
def profileOf (uid : String) (d : ProfileData) : UserProfile :=
  { id := (d.id).getD uid
    email := d.email
    phone := d.phone
    name := d.name
    photoURL := d.photoURL
    createdAt := d.createdAt
    updatedAt := d.updatedAt }

/-- The `try` block of `fetchUserProfile uid`: `get` the record; if it
does not exist, build the default profile (two separate `new Date()`
readings `t1` for `createdAt`, then `t2` for `updatedAt`), `set` it and
return it with the id; otherwise return the snapshot with the id.
`getFails`/`setFails` are the outcomes of the two store calls. -/
def fetchTry (store : Store) (uid : String) (t1 t2 : Nat)
    (getFails setFails : Bool) :
    Except JSError (Option UserProfile × Store) :=
  if getFails then .error .storeError
  else
    match store uid with
    | none =>
        let defaultProfile : ProfileData :=
          { email := some ""
            phone := some ""
            createdAt := some t1
            updatedAt := some t2 }
        if setFails then .error .storeError
        else
          .ok (some (profileOf uid defaultProfile),
               fun u => if u = uid then some defaultProfile else store u)
    | some data => .ok (some (profileOf uid data), store)

/-- `fetchUserProfile`: the `try` block wrapped in its `catch`, which
logs, emits the `toast.error('Unable to load profile')` notification and
returns `null` for every error.  Result: the value the returned promise
settles with, the store after the call, the toasts emitted. -/
def fetchUserProfile (store : Store) (uid : String) (t1 t2 : Nat)
    (getFails setFails : Bool) :
    Except JSError (Option UserProfile) × Store × List String :=
  match fetchTry store uid t1 t2 getFails setFails with
  | .ok (p, s) => (.ok p, s, [])
  | .error _ => (.ok none, store, ["Unable to load profile"])

/-- `updateUserProfile uid data`: builds `{...data, updatedAt: now}` and
`update`s the record (a partial top-level merge in the document store,
creating the record when absent).  The `catch` rethrows, so a failed
`update` propagates with no toast and no store change. -/
def updateUserProfile (store : Store) (uid : String) (data : ProfileData)
    (now : Nat) (updateFails : Bool) :
    Except JSError Unit × Store × List String :=
  if updateFails then (.error .storeError, store, [])
  else
    let updateData := { data with updatedAt := some now }
    (.ok (),
     fun u => if u = uid then some (ProfileData.merge ((store u).getD {}) updateData)
              else store u,
     [])

/-- `data.phone || ''`: JavaScript `||` yields the right operand when the
left one is falsy (absent or the empty string). -/
def forcePhone (p : Option String) : String :=
  match p with
  | some v => if v = "" then "" else v
  | none => ""

/-- `createUserProfile uid data`: `set`s (full replace)
`{...data, phone: data.phone || '', createdAt: now, updatedAt: now}` with
two separate `new Date()` readings `t1` then `t2`.  The `catch`
rethrows. -/
def createUserProfile (store : Store) (uid : String) (data : ProfileData)
    (t1 t2 : Nat) (setFails : Bool) :
    Except JSError Unit × Store × List String :=
  if setFails then (.error .storeError, store, [])
  else
    let record : ProfileData :=
      { data with
        phone := some (forcePhone data.phone)
        createdAt := some t1
        updatedAt := some t2 }
    (.ok (), fun u => if u = uid then some record else store u, [])

/-- The identity-provider `User` object, as far as this code reads it:
`uid` is always present, `email`, `displayName` and `photoURL` are
nullable. -/
structure UserInfo where
  uid : String
  email : Option String := none
  displayName : Option String := none
  photoURL : Option String := none
deriving DecidableEq, Repr

/-- The reactive state held by `AuthProvider`:
`currentUser`, `userProfile`, `loading`, `isOffline`. -/
structure SessionState where
  currentUser : Option UserInfo := none
  userProfile : Option UserProfile := none
  loading : Bool := true
  isOffline : Bool := false
deriving DecidableEq, Repr

/-- The `onAuthStateChanged` callback of `AuthProvider`: stores the user;
when a user is present it awaits `fetchUserProfile` inside a `try` whose
`catch` shows `Unable to load profile` only when not offline; finally it
clears `loading`.  Result: new session state, new store, toasts. -/
def authStateHandler (sess : SessionState) (store : Store)
    (user : Option UserInfo) (t1 t2 : Nat) (getFails setFails : Bool) :
    SessionState × Store × List String :=
  match user with
  | none =>
      ({ sess with currentUser := none, userProfile := none, loading := false },
       store, [])
  | some u =>
      let sess1 := { sess with currentUser := some u }
      match fetchUserProfile store u.uid t1 t2 getFails setFails with
      | (.ok p, s, ts) =>
          let sess2 := match p with
                       | some profile => { sess1 with userProfile := some profile }
                       | none => sess1
          ({ sess2 with loading := false }, s, ts)
      | (.error _, s, ts) =>
          ({ sess1 with loading := false }, s,
           ts ++ (if sess.isOffline then [] else ["Unable to load profile"]))

/-- `login(email, password)`: awaits the provider sign-in (outcome
`signInResult`), fetches the profile of the resulting user, stores it if
non-null and toasts success; the `catch` toasts a network-specific or
generic failure message and rethrows. -/
def login (sess : SessionState) (store : Store)
    (email password : String) (signInResult : Except JSError UserInfo)
    (t1 t2 : Nat) (getFails setFails : Bool) :
    Except JSError Unit × SessionState × Store × List String :=
  match signInResult with
  | .error e =>
      (.error e, sess, store,
       [if e = JSError.authNetworkFailed then
          "Network error. Please check your connection."
        else "Failed to login"])
  | .ok user =>
      match fetchUserProfile store user.uid t1 t2 getFails setFails with
      | (.ok p, s, ts) =>
          let sess1 := match p with
                       | some profile => { sess with userProfile := some profile }
                       | none => sess
          (.ok (), sess1, s, ts ++ ["Successfully logged in!"])
      | (.error e, s, ts) =>
          (.error e, sess, s,
           ts ++ [if e = JSError.authNetworkFailed then
                    "Network error. Please check your connection."
                  else "Failed to login"])

/-- `register(email, password, name)`: creates the identity (outcome
`createUserResult`), then `createUserProfile` with the given name/email,
empty phone and a caller-side `createdAt` reading `tr`, then fetches the
stored profile back into state; the `catch` toasts `Failed to register`
and rethrows. -/
def register (sess : SessionState) (store : Store)
    (email password nm : String) (createUserResult : Except JSError UserInfo)
    (tr tc1 tc2 tf1 tf2 : Nat) (createFails getFails setFails : Bool) :
    Except JSError Unit × SessionState × Store × List String :=
  match createUserResult with
  | .error e => (.error e, sess, store, ["Failed to register"])
  | .ok user =>
      let d : ProfileData :=
        { name := some nm, email := some email, phone := some ""
          createdAt := some tr }
      match createUserProfile store user.uid d tc1 tc2 createFails with
      | (.error e, s, ts) => (.error e, sess, s, ts ++ ["Failed to register"])
      | (.ok _, s, ts) =>
          match fetchUserProfile s user.uid tf1 tf2 getFails setFails with
          | (.ok p, s2, ts2) =>
              let sess1 := match p with
                           | some profile => { sess with userProfile := some profile }
                           | none => sess
              (.ok (), sess1, s2, ts ++ ts2 ++ ["Successfully registered!"])
          | (.error e, s2, ts2) =>
              (.error e, sess, s2, ts ++ ts2 ++ ["Failed to register"])

/-- `updateProfile(data)`: throws `No user logged in` before the `try`
block when `currentUser` is null; otherwise awaits `updateUserProfile`,
refetches the profile into state and toasts success; the `catch` toasts
`Failed to update profile` unless offline, and rethrows. -/
def updateProfile (sess : SessionState) (store : Store) (data : ProfileData)
    (tu tf1 tf2 : Nat) (updateFails getFails setFails : Bool) :
    Except JSError Unit × SessionState × Store × List String :=
  match sess.currentUser with
  | none => (.error .noUser, sess, store, [])
  | some u =>
      match updateUserProfile store u.uid data tu updateFails with
      | (.error e, s, ts) =>
          (.error e, sess, s,
           ts ++ (if sess.isOffline then [] else ["Failed to update profile"]))
      | (.ok _, s, ts) =>
          match fetchUserProfile s u.uid tf1 tf2 getFails setFails with
          | (.ok p, s2, ts2) =>
              let sess1 := match p with
                           | some profile => { sess with userProfile := some profile }
                           | none => sess
              (.ok (), sess1, s2, ts ++ ts2 ++ ["Profile updated successfully!"])
          | (.error e, s2, ts2) =>
              (.error e, sess, s2,
               ts ++ ts2 ++ (if sess.isOffline then [] else ["Failed to update profile"]))

/-- Provider calls `updatePassword` can make, in order. -/
inductive AuthAction where
  | reauthenticate : AuthAction
  | passwordChange : AuthAction
deriving DecidableEq, Repr

/-- `updatePassword(currentPassword, newPassword)`: the guard
`!currentUser?.email` throws `No user logged in` (before the `try`) when
there is no user, the email is null, or the email is the empty string
(falsy); otherwise it re-authenticates (outcome `reauthResult`) and then
requests the password change (outcome `changeResult`), toasting success or
failure and rethrowing errors.  The second result lists the provider
calls actually made. -/
def updatePassword (sess : SessionState)
    (currentPassword newPassword : String)
    (reauthResult changeResult : Except JSError Unit) :
    Except JSError Unit × List AuthAction × List String :=
  match sess.currentUser with
  | none => (.error .noUser, [], [])
  | some u =>
      match u.email with
      | none => (.error .noUser, [], [])
      | some e =>
          if e = "" then (.error .noUser, [], [])
          else
            match reauthResult with
            | .error err => (.error err, [.reauthenticate], ["Failed to update password"])
            | .ok _ =>
                match changeResult with
                | .error err =>
                    (.error err, [.reauthenticate, .passwordChange],
                     ["Failed to update password"])
                | .ok _ =>
                    (.ok (), [.reauthenticate, .passwordChange],
                     ["Password updated successfully"])

/-- `googleSignIn()`: awaits the OAuth popup (outcome `popupResult`),
then `createUserProfile` from the provider-supplied
`displayName || undefined`, `email!`, empty phone and
`photoURL || undefined` (a full `set`, overwriting any existing record),
then fetches the record back into state; the `catch` toasts
`Failed to sign in with Google` and rethrows. -/
def googleSignIn (sess : SessionState) (store : Store)
    (popupResult : Except JSError UserInfo)
    (tc1 tc2 tf1 tf2 : Nat) (createFails getFails setFails : Bool) :
    Except JSError Unit × SessionState × Store × List String :=
  match popupResult with
  | .error e => (.error e, sess, store, ["Failed to sign in with Google"])
  | .ok user =>
      let d : ProfileData :=
        { name := match user.displayName with
                  | some n => if n = "" then none else some n
                  | none => none
          email := user.email
          phone := some ""
          photoURL := match user.photoURL with
                      | some p => if p = "" then none else some p
                      | none => none }
      match createUserProfile store user.uid d tc1 tc2 createFails with
      | (.error e, s, ts) => (.error e, sess, s, ts ++ ["Failed to sign in with Google"])
      | (.ok _, s, ts) =>
          match fetchUserProfile s user.uid tf1 tf2 getFails setFails with
          | (.ok p, s2, ts2) =>
              let sess1 := match p with
                           | some profile => { sess with userProfile := some profile }
                           | none => sess
              (.ok (), sess1, s2, ts ++ ts2 ++ ["Successfully signed in with Google!"])
          | (.error e, s2, ts2) =>
              (.error e, sess, s2, ts ++ ts2 ++ ["Failed to sign in with Google"])

/-! Concrete fixtures used by witnesses and counterexamples. -/

/-- A store with no records. -/
def emptyStore : Store := fun _ => none

/-- An existing stored record. -/
def rec0 : ProfileData :=
  { email := some "a@x.com", phone := some "777", name := some "Alice"
    createdAt := some 5, updatedAt := some 6 }

/-- A store holding `rec0` under user id `u1`. -/
def store0 : Store := fun u => if u = "u1" then some rec0 else none

/-- A stored record that itself contains an `id` field (reachable: the
adapter's `update` merges any `Partial<UserProfile>`, `id` included). -/
def recWithId : ProfileData :=
  { id := some "u2", email := some "e@x.com", phone := some "1"
    createdAt := some 1, updatedAt := some 2 }

/-- A store holding `recWithId` under user id `u1`. -/
def storeWithId : Store := fun u => if u = "u1" then some recWithId else none

/-- A provider user for the Google sign-in scenario. -/
def gUser : UserInfo :=
  { uid := "u1", email := some "a@x.com", displayName := some "Alice G" }

/-- A provider user with only a uid. -/
def u1 : UserInfo := { uid := "u1" }

/-- Session state: nobody signed in, load finished, offline. -/
def sessOffline : SessionState :=
  { currentUser := none, userProfile := none, loading := false, isOffline := true }

/-! Claim theorems. -/

/-- Claim C1: for every user id with no existing profile record, `fetch`
creates a new record with empty-string email and phone and current
timestamps (`createdAt` from the first clock reading, `updatedAt` from
the second, so `createdAt` is less than or equal to `updatedAt` under a
monotone clock), persists it, and returns it with the requested id;
email and phone are never left undefined. -/
theorem fetch_creates_default_profile
    (store : Store) (uid : String) (t1 t2 : Nat)
    (habsent : store uid = none) (hclock : t1 ≤ t2) :
    ∃ p : UserProfile,
      (fetchUserProfile store uid t1 t2 false false).1 = .ok (some p) ∧
      p.id = uid ∧ p.email = some "" ∧ p.phone = some "" ∧
      p.email.isSome ∧ p.phone.isSome ∧
      p.createdAt = some t1 ∧ p.updatedAt = some t2 ∧ t1 ≤ t2 ∧
      (fetchUserProfile store uid t1 t2 false false).2.1 uid =
        some { email := some "", phone := some ""
               createdAt := some t1, updatedAt := some t2 } ∧
      (fetchUserProfile store uid t1 t2 false false).2.2 = [] := by
  use profileOf uid { email := some "", phone := some ""
                      createdAt := some t1, updatedAt := some t2 }
  simp [fetchUserProfile, fetchTry, habsent, profileOf, hclock]

/-- Claim C1 witness at `uid = "u1"` on the empty store with clock
readings 3 and 4. -/
theorem fetch_creates_default_profile_witness :
    emptyStore "u1" = none ∧ 3 ≤ 4 ∧
    ∃ p : UserProfile,
      (fetchUserProfile emptyStore "u1" 3 4 false false).1 = .ok (some p) ∧
      p.id = "u1" ∧ p.email = some "" ∧ p.phone = some "" ∧
      p.email.isSome ∧ p.phone.isSome ∧
      p.createdAt = some 3 ∧ p.updatedAt = some 4 ∧ 3 ≤ 4 ∧
      (fetchUserProfile emptyStore "u1" 3 4 false false).2.1 "u1" =
        some { email := some "", phone := some ""
               createdAt := some 3, updatedAt := some 4 } ∧
      (fetchUserProfile emptyStore "u1" 3 4 false false).2.2 = [] :=
  ⟨rfl, by decide, fetch_creates_default_profile emptyStore "u1" 3 4 rfl (by decide)⟩

/-- Claim C2: updating an existing record with only a name merges just
that field: email, phone, photoURL, id and createdAt are unchanged in the
stored record, and updatedAt becomes the call-time reading, which is at
least the previous updatedAt under a monotone clock. -/
theorem update_name_frame
    (store : Store) (uid x : String) (rec : ProfileData) (t0 tu : Nat)
    (hrec : store uid = some rec) (hprev : rec.updatedAt = some t0)
    (hclock : t0 ≤ tu) :
    ∃ r : ProfileData,
      (updateUserProfile store uid { name := some x } tu false).2.1 uid = some r ∧
      r.name = some x ∧ r.updatedAt = some tu ∧ t0 ≤ tu ∧
      r.email = rec.email ∧ r.createdAt = rec.createdAt ∧
      r.phone = rec.phone ∧ r.photoURL = rec.photoURL ∧ r.id = rec.id ∧
      (updateUserProfile store uid { name := some x } tu false).1 = .ok () := by
  use ProfileData.merge rec { name := some x, updatedAt := some tu }
  simp [updateUserProfile, hrec, ProfileData.merge, over, hclock]

/-- Claim C2 witness on `store0` (record `rec0`, previous updatedAt 6)
with new name `X` at clock reading 7. -/
theorem update_name_frame_witness :
    store0 "u1" = some rec0 ∧ rec0.updatedAt = some 6 ∧ 6 ≤ 7 ∧
    ∃ r : ProfileData,
      (updateUserProfile store0 "u1" { name := some "X" } 7 false).2.1 "u1" = some r ∧
      r.name = some "X" ∧ r.updatedAt = some 7 ∧ 6 ≤ 7 ∧
      r.email = rec0.email ∧ r.createdAt = rec0.createdAt ∧
      r.phone = rec0.phone ∧ r.photoURL = rec0.photoURL ∧ r.id = rec0.id ∧
      (updateUserProfile store0 "u1" { name := some "X" } 7 false).1 = .ok () :=
  ⟨rfl, rfl, by decide,
   update_name_frame store0 "u1" "X" rec0 6 7 rfl rfl (by decide)⟩

/-- Claim C3 (divergence witness): a profile fetch through the
auth-state handler while `isOffline` is true and the store is unreachable
(`getFails`) returns no profile and leaves the offline flag true, but the
`Unable to load profile` notification IS shown: it is emitted
unconditionally inside `fetchUserProfile`'s catch, so the
`if (!isOffline)` suppression in `AuthProvider` never runs. -/
theorem offline_fetch_still_toasts :
    authStateHandler sessOffline emptyStore (some u1) 3 4 true false =
      ({ currentUser := some u1, userProfile := none
         loading := false, isOffline := true },
       emptyStore, ["Unable to load profile"]) ∧
    (["Unable to load profile"] : List String) ≠ [] := by
  constructor
  · rfl
  · simp

/-- Claim C4: `updateProfile` with no authenticated identity fails with
the `No user logged in` error, writes nothing to the store, emits no
toast, and leaves the session state unchanged. -/
theorem updateProfile_no_user
    (sess : SessionState) (store : Store) (data : ProfileData)
    (tu tf1 tf2 : Nat) (uF gF sF : Bool)
    (h : sess.currentUser = none) :
    updateProfile sess store data tu tf1 tf2 uF gF sF =
      (.error .noUser, sess, store, []) := by
  simp [updateProfile, h]

/-- Claim C4 witness: signed-out offline session, empty store. -/
theorem updateProfile_no_user_witness :
    sessOffline.currentUser = none ∧
    updateProfile sessOffline emptyStore { name := some "X" } 1 2 3 false false false =
      (.error .noUser, sessOffline, emptyStore, []) :=
  ⟨rfl, updateProfile_no_user sessOffline emptyStore { name := some "X" }
          1 2 3 false false false rfl⟩

/-- Claim C5 counterexample: `fetch` builds `{ id: uid, ...stored }`, so
a stored record carrying its own `id` field overrides the requested id:
fetching `u1` from `storeWithId` returns a profile whose id is `u2`. -/
theorem fetch_id_overridden_cex :
    (fetchUserProfile storeWithId "u1" 3 4 false false).1 =
      .ok (some { id := "u2", email := some "e@x.com", phone := some "1"
                  createdAt := some 1, updatedAt := some 2 }) ∧
    ("u2" : String) ≠ "u1" := by
  constructor
  · rfl
  · decide

/-- Claim C5 (amended): for every existing record, `fetch` returns the
stored fields unmodified with the requested id supplied as a default:
the returned id equals the requested id whenever the stored record has no
`id` field, and equals the stored `id` otherwise; the store and toast
list are untouched. -/
theorem fetch_existing_returns_stored
    (store : Store) (uid : String) (rec : ProfileData) (t1 t2 : Nat)
    (hrec : store uid = some rec) :
    fetchUserProfile store uid t1 t2 false false =
      (.ok (some (profileOf uid rec)), store, []) ∧
    (profileOf uid rec).email = rec.email ∧
    (profileOf uid rec).phone = rec.phone ∧
    (profileOf uid rec).name = rec.name ∧
    (profileOf uid rec).photoURL = rec.photoURL ∧
    (profileOf uid rec).createdAt = rec.createdAt ∧
    (profileOf uid rec).updatedAt = rec.updatedAt ∧
    (rec.id = none → (profileOf uid rec).id = uid) ∧
    (∀ x, rec.id = some x → (profileOf uid rec).id = x) := by
  refine ⟨?_, rfl, rfl, rfl, rfl, rfl, rfl, ?_, ?_⟩
  · simp [fetchUserProfile, fetchTry, hrec]
  · intro h; simp [profileOf, h]
  · intro x h; simp [profileOf, h]

/-- Claim C5 (amended) witness on `store0`, whose record has no `id`
field. -/
theorem fetch_existing_returns_stored_witness :
    store0 "u1" = some rec0 ∧
    fetchUserProfile store0 "u1" 3 4 false false =
      (.ok (some (profileOf "u1" rec0)), store0, []) ∧
    (profileOf "u1" rec0).email = rec0.email ∧
    (profileOf "u1" rec0).phone = rec0.phone ∧
    (profileOf "u1" rec0).name = rec0.name ∧
    (profileOf "u1" rec0).photoURL = rec0.photoURL ∧
    (profileOf "u1" rec0).createdAt = rec0.createdAt ∧
    (profileOf "u1" rec0).updatedAt = rec0.updatedAt ∧
    (rec0.id = none → (profileOf "u1" rec0).id = "u1") ∧
    (∀ x, rec0.id = some x → (profileOf "u1" rec0).id = x) :=
  ⟨rfl, fetch_existing_returns_stored store0 "u1" rec0 3 4 rfl⟩

/-- Claim C6 counterexample: `googleSignIn` on an already-registered user
rewrites the whole record through `createUserProfile`'s full `set`: the
stored `createdAt` changes from 5 to the call-time reading 10 (and the
stored phone `777` is replaced by the empty string), so not every
mutation preserves `createdAt`. -/
theorem googleSignIn_resets_createdAt_cex :
    store0 "u1" = some rec0 ∧ rec0.createdAt = some 5 ∧ rec0.phone = some "777" ∧
    (googleSignIn sessOffline store0 (.ok gUser) 10 11 12 13
        false false false).2.2.1 "u1" =
      some { name := some "Alice G", email := some "a@x.com", phone := some ""
             createdAt := some 10, updatedAt := some 11 } ∧
    (some 10 : Option Nat) ≠ some 5 := by
  refine ⟨rfl, rfl, rfl, ?_, by decide⟩
  rfl

/-- Claim C6 (amended): mutations through the adapter's `update` are
partial merges preserving every field absent from the supplied data
(`createdAt` in particular), and no adapter operation removes an existing
record; however `createUserProfile` — which `googleSignIn` runs even for
an already-registered user — is a full `set` that rewrites `createdAt` to
the call-time reading. -/
theorem update_preserves_absent_fields
    (store : Store) (uid v : String) (rec d : ProfileData) (tu t1 t2 : Nat)
    (hrec : store uid = some rec) :
    (∃ r : ProfileData,
       (updateUserProfile store uid d tu false).2.1 uid = some r ∧
       (d.createdAt = none → r.createdAt = rec.createdAt) ∧
       (d.email = none → r.email = rec.email) ∧
       (d.phone = none → r.phone = rec.phone) ∧
       (d.name = none → r.name = rec.name) ∧
       (d.photoURL = none → r.photoURL = rec.photoURL) ∧
       (d.id = none → r.id = rec.id)) ∧
    ((updateUserProfile store v d tu false).2.1 uid).isSome ∧
    ((createUserProfile store v d t1 t2 false).2.1 uid).isSome ∧
    ((fetchUserProfile store v t1 t2 false false).2.1 uid).isSome ∧
    (∃ r : ProfileData,
       (createUserProfile store uid d t1 t2 false).2.1 uid = some r ∧
       r.createdAt = some t1 ∧ r.updatedAt = some t2) := by
  refine ⟨⟨ProfileData.merge rec { d with updatedAt := some tu },
          ?_, ?_, ?_, ?_, ?_, ?_, ?_⟩, ?_, ?_, ?_, ?_⟩
  · simp [updateUserProfile, hrec]
  · intro h; simp [ProfileData.merge, over, h]
  · intro h; simp [ProfileData.merge, over, h]
  · intro h; simp [ProfileData.merge, over, h]
  · intro h; simp [ProfileData.merge, over, h]
  · intro h; simp [ProfileData.merge, over, h]
  · intro h; simp [ProfileData.merge, over, h]
  · by_cases hv : uid = v
    · subst hv; simp [updateUserProfile]
    · simp [updateUserProfile, hv, hrec]
  · by_cases hv : uid = v
    · subst hv; simp [createUserProfile]
    · simp [createUserProfile, hv, hrec]
  · cases hsv : store v with
    | none =>
        by_cases hv : uid = v
        · subst hv; simp [hrec] at hsv
        · simp [fetchUserProfile, fetchTry, hsv, hv, hrec]
    | some r => simp [fetchUserProfile, fetchTry, hsv, hrec]
  · exact ⟨{ d with phone := some (forcePhone d.phone), createdAt := some t1, updatedAt := some t2 }, by simp [createUserProfile], rfl, rfl⟩

/-- Claim C6 (amended) witness on `store0` with an email-only update. -/
theorem update_preserves_absent_fields_witness :
    store0 "u1" = some rec0 ∧
    ((∃ r : ProfileData,
       (updateUserProfile store0 "u1" { email := some "x@y" } 7 false).2.1 "u1" = some r ∧
       (({ email := some "x@y" } : ProfileData).createdAt = none → r.createdAt = rec0.createdAt) ∧
       (({ email := some "x@y" } : ProfileData).email = none → r.email = rec0.email) ∧
       (({ email := some "x@y" } : ProfileData).phone = none → r.phone = rec0.phone) ∧
       (({ email := some "x@y" } : ProfileData).name = none → r.name = rec0.name) ∧
       (({ email := some "x@y" } : ProfileData).photoURL = none → r.photoURL = rec0.photoURL) ∧
       (({ email := some "x@y" } : ProfileData).id = none → r.id = rec0.id)) ∧
    ((updateUserProfile store0 "u2" { email := some "x@y" } 7 false).2.1 "u1").isSome ∧
    ((createUserProfile store0 "u2" { email := some "x@y" } 8 9 false).2.1 "u1").isSome ∧
    ((fetchUserProfile store0 "u2" 8 9 false false).2.1 "u1").isSome ∧
    (∃ r : ProfileData,
       (createUserProfile store0 "u1" { email := some "x@y" } 8 9 false).2.1 "u1" = some r ∧
       r.createdAt = some 8 ∧ r.updatedAt = some 9)) :=
  ⟨rfl, update_preserves_absent_fields store0 "u1" "u2" rec0
          { email := some "x@y" } 7 8 9 rfl⟩

/-- Claim C7: when the identity provider rejects the credentials, `login`
rethrows the provider error, shows the `Failed to login` notification,
and leaves the session state (in particular `userProfile`) and the store
unchanged. -/
theorem login_rejected_credentials
    (sess : SessionState) (store : Store) (email password : String)
    (t1 t2 : Nat) (gF sF : Bool) :
    login sess store email password (.error .authRejected) t1 t2 gF sF =
      (.error .authRejected, sess, store, ["Failed to login"]) := by
  rfl

/-- Claim C8: `updatePassword` with no authenticated identity, or with an
identity whose email is null or empty (falsy), fails with the
`No user logged in` error before the provider is asked anything: no
re-authentication and no password change is attempted, and no toast is
shown. -/
theorem updatePassword_no_email
    (sess : SessionState) (cp np : String) (ra rc : Except JSError Unit)
    (h : sess.currentUser = none ∨
         ∃ u, sess.currentUser = some u ∧ (u.email = none ∨ u.email = some "")) :
    updatePassword sess cp np ra rc = (.error .noUser, [], []) := by
  rcases h with h | ⟨u, hu, he | he⟩ <;> simp [updatePassword, *]

/-- Claim C8 witness: signed-out session, both provider calls would have
succeeded had they been reached. -/
theorem updatePassword_no_email_witness :
    (sessOffline.currentUser = none ∨
     ∃ u, sessOffline.currentUser = some u ∧ (u.email = none ∨ u.email = some "")) ∧
    updatePassword sessOffline "old" "new" (.ok ()) (.ok ()) =
      (.error .noUser, [], []) :=
  ⟨Or.inl rfl,
   updatePassword_no_email sessOffline "old" "new" (.ok ()) (.ok ()) (Or.inl rfl)⟩

/-- Claim C9: for every input and every behaviour of the store's `get`
and `set`, `fetchUserProfile` settles with `.ok` (its catch swallows
every failure into a null result), and consequently the auth-state
handler's own catch contributes nothing: its toasts are exactly those of
`fetchUserProfile`. -/
theorem fetchUserProfile_never_throws
    (store : Store) (uid : String) (t1 t2 : Nat) (gF sF : Bool)
    (sess : SessionState) (u : UserInfo) :
    (fetchUserProfile store uid t1 t2 gF sF).1.isOk = true ∧
    (authStateHandler sess store (some u) t1 t2 gF sF).2.2 =
      (fetchUserProfile store u.uid t1 t2 gF sF).2.2 := by
  constructor
  · cases hft : fetchTry store uid t1 t2 gF sF with
    | error e => simp [fetchUserProfile, hft, Except.isOk, Except.toBool]
    | ok v => obtain ⟨p, s⟩ := v; simp [fetchUserProfile, hft, Except.isOk, Except.toBool]
  · cases hft : fetchTry store u.uid t1 t2 gF sF with
    | error e => simp [authStateHandler, fetchUserProfile, hft]
    | ok v =>
        obtain ⟨p, s⟩ := v
        cases p <;> simp [authStateHandler, fetchUserProfile, hft]

/-- Claim C10: caller-supplied timestamps are always overridden —
`updateUserProfile` stores the call-time `updatedAt` whatever the data
says, and `createUserProfile` stores the call-time `createdAt` and
`updatedAt` whatever the data says (as `register`'s caller-side
`createdAt` is), forcing `phone` to the empty string when the supplied
phone is absent or empty. -/
theorem timestamps_overridden
    (store : Store) (uid : String) (d : ProfileData) (tu t1 t2 : Nat) :
    (∃ r : ProfileData,
       (updateUserProfile store uid d tu false).2.1 uid = some r ∧
       r.updatedAt = some tu) ∧
    (∃ r : ProfileData,
       (createUserProfile store uid d t1 t2 false).2.1 uid = some r ∧
       r.createdAt = some t1 ∧ r.updatedAt = some t2 ∧
       ((d.phone = none ∨ d.phone = some "") → r.phone = some "")) := by
  constructor
  · exact ⟨ProfileData.merge ((store uid).getD {}) { d with updatedAt := some tu },
           by simp [updateUserProfile], by simp [ProfileData.merge, over]⟩
  · refine ⟨{ d with phone := some (forcePhone d.phone), createdAt := some t1, updatedAt := some t2 }, by simp [createUserProfile], rfl, rfl, ?_⟩
    rintro (h | h) <;> simp [forcePhone, h]

/-- Claim C10 witness: data that supplies both timestamps (99 and 98) and
no phone; the stored record still carries the call-time readings. -/
theorem timestamps_overridden_witness :
    (∃ r : ProfileData,
       (updateUserProfile store0 "u1"
          { phone := none, createdAt := some 98, updatedAt := some 99 } 7 false).2.1 "u1" =
         some r ∧ r.updatedAt = some 7) ∧
    (∃ r : ProfileData,
       (createUserProfile store0 "u1"
          { phone := none, createdAt := some 98, updatedAt := some 99 } 8 9 false).2.1 "u1" =
         some r ∧ r.createdAt = some 8 ∧ r.updatedAt = some 9 ∧
         ((({ phone := none, createdAt := some 98, updatedAt := some 99 } : ProfileData).phone = none ∨
           ({ phone := none, createdAt := some 98, updatedAt := some 99 } : ProfileData).phone = some "") →
          r.phone = some "")) :=
  timestamps_overridden store0 "u1"
    { phone := none, createdAt := some 98, updatedAt := some 99 } 7 8 9
